import Mathlib

/-
  Verification of the moon-builder lunar chart generator.

  Shallow embedding conventions:
  * JavaScript numbers that only ever hold exact decimal values (minutes of
    the day, layout constants, the synodic constants) are embedded as `ℚ`.
  * The sinusoidal visibility curve (`Math.cos`/`Math.sin`) is embedded over
    `ℝ` with `Real.cos`/`Real.sin`; those definitions are necessarily
    noncomputable.
  * `null` becomes `none`; a function that can return `null` returns an
    `Option`.
  * The JS remainder operator `%` on numbers truncates the quotient toward
    zero; `jsRem` below reproduces that.
-/

namespace MoonBuilder

/-! ## Constants (MoonData.ts and the MoonImage constructor) -/

/-- Earth days for one moon cycle (`MOON_PERIOD_DAYS` in MoonData.ts). -/
def MOON_PERIOD_DAYS : ℚ := 29.53058770576

/-- UNIX Epoch in Julian days (`UNIX_EPOCH` in MoonData.ts). -/
def UNIX_EPOCH : ℚ := 2440587.5

/-- Reference new-moon epoch (`LUNAR_REFERENCE` in MoonData.ts). -/
def LUNAR_REFERENCE : ℚ := 2451550.1

/-- Milliseconds per day (`MSEC_PER_DAY` in MoonData.ts). -/
def MSEC_PER_DAY : ℚ := 24 * 60 * 60 * 1000

/-- Minutes per day (`MIN_PER_DAY` in MoonData.ts). -/
def MIN_PER_DAY : ℚ := 24 * 60

/-- `this.moonPlotX` from the MoonImage constructor. -/
def moonPlotX : ℚ := 50

/-- `this.moonPlotY` from the MoonImage constructor. -/
def moonPlotY : ℚ := 400

/-- `this.moonPlotWidth` from the MoonImage constructor. -/
def moonPlotWidth : ℚ := 1800

/-- `this.moonPlotHeight` from the MoonImage constructor. -/
def moonPlotHeight : ℚ := 500

/-- `this.moonPlotAplitude` from the MoonImage constructor (sic). -/
def moonPlotAplitude : ℚ := 150

/-- `this.moonPlotYOrigin = moonPlotY + moonPlotHeight/2`. -/
def moonPlotYOrigin : ℚ := moonPlotY + moonPlotHeight / 2

/-! ## MoonData.getMoonAgeDays -/

/-- Truncation toward zero, as JavaScript applies to the quotient when
evaluating the `%` operator on numbers. -/
def jsTrunc (q : ℚ) : ℤ := if q < 0 then ⌈q⌉ else ⌊q⌋

/-- The JavaScript `%` operator on (finite) numbers: the remainder of the
division with the quotient truncated toward zero, so the result carries the
sign of the dividend. -/
def jsRem (x p : ℚ) : ℚ := x - p * (jsTrunc (x / p) : ℚ)

/-- `MoonData.getMoonAgeDays`.  The source builds
`julianDate = date.getTime()/MSEC_PER_DAY - date.getTimezoneOffset()/MIN_PER_DAY + UNIX_EPOCH`;
here `timeMsec` stands for `date.getTime()` (milliseconds since the UNIX
epoch) and `tzOffsetMinutes` for `date.getTimezoneOffset()`.  Then
`ageDays = (julianDate - LUNAR_REFERENCE) % MOON_PERIOD_DAYS` and, when that
is negative, the source executes `ageDays++`, i.e. adds exactly 1. -/
def getMoonAgeDays (timeMsec tzOffsetMinutes : ℚ) : ℚ :=
  let julianDate := timeMsec / MSEC_PER_DAY - tzOffsetMinutes / MIN_PER_DAY + UNIX_EPOCH
  let ageDays := jsRem (julianDate - LUNAR_REFERENCE) MOON_PERIOD_DAYS
  if ageDays < 0 then ageDays + 1 else ageDays

/-! ## MoonData.getPhaseStr and MoonImage.getMoonImageForAge -/

/-- `MoonData.getPhaseStr`: the 16-bucket phase-name lookup. -/
def getPhaseStr (ageDays : ℚ) : String :=
  let phaseLength := MOON_PERIOD_DAYS / 16
  if ageDays < phaseLength then "New Moon"
  else if ageDays < phaseLength * 3 then "Waxing Crescent"
  else if ageDays < phaseLength * 5 then "First Quarter"
  else if ageDays < phaseLength * 7 then "Waxing Gibbous"
  else if ageDays < phaseLength * 9 then "Full Moon"
  else if ageDays < phaseLength * 11 then "Waning Gibbus"
  else if ageDays < phaseLength * 13 then "Last Quarter"
  else if ageDays < phaseLength * 15 then "Waning Crescent"
  else "New Moon"

/-- `MoonImage.getMoonImageForAge`: the 16-bucket icon-filename lookup. -/
def getMoonImageForAge (ageDays : ℚ) : String :=
  let phaseLength := MOON_PERIOD_DAYS / 16
  if ageDays < phaseLength then "new-moon.png"
  else if ageDays < phaseLength * 3 then "waxing-crescent.png"
  else if ageDays < phaseLength * 5 then "first-quarter.png"
  else if ageDays < phaseLength * 7 then "waxing-gibbous"
  else if ageDays < phaseLength * 9 then "full-moon.png"
  else if ageDays < phaseLength * 11 then "waning-crescent.png"
  else if ageDays < phaseLength * 13 then "last-quarter.png"
  else if ageDays < phaseLength * 15 then "waning-crescent.png"
  else "new-moon.png"

/-- The icon filename that names the same phase as the 16-bucket phase-name
lookup, over the same bucket boundaries and in the bucket order stated by the
specification (New Moon, Waxing Crescent, First Quarter, Waxing Gibbous, Full
Moon, Waning Gibbous, Last Quarter, Waning Crescent, New Moon).  This
definition follows the specification's words; it is the reference side of
the refinement claim comparing the icon lookup with the phase-name
lookup. -/
def specIconForAge (ageDays : ℚ) : String :=
  let phaseLength := MOON_PERIOD_DAYS / 16
  if ageDays < phaseLength then "new-moon.png"
  else if ageDays < phaseLength * 3 then "waxing-crescent.png"
  else if ageDays < phaseLength * 5 then "first-quarter.png"
  else if ageDays < phaseLength * 7 then "waxing-gibbous.png"
  else if ageDays < phaseLength * 9 then "full-moon.png"
  else if ageDays < phaseLength * 11 then "waning-gibbous.png"
  else if ageDays < phaseLength * 13 then "last-quarter.png"
  else if ageDays < phaseLength * 15 then "waning-crescent.png"
  else "new-moon.png"

/-! ## MoonImage.getMinutes -/

/-- Splitting a character list at a separator, as `String.prototype.split`
does with a single-character separator: the empty string gives one empty
field, and a trailing separator yields a trailing empty field. -/
def splitOnChar (sep : Char) : List Char → List (List Char)
  | [] => [[]]
  | c :: rest =>
    let r := splitOnChar sep rest
    if c = sep then [] :: r
    else
      match r with
      | [] => [[c]]
      | g :: gs => (c :: g) :: gs

/-- Is `c` one of the whitespace or line-terminator characters stripped by
the `Number` coercion (ECMAScript StrWhiteSpaceChar: TAB, LF, VT, FF, CR,
SP, NBSP, the Unicode space separators, LS, PS and the zero-width no-break
space). -/
def isSpaceChar (c : Char) : Bool :=
  let n := c.toNat
  n == 0x9 || n == 0xA || n == 0xB || n == 0xC || n == 0xD || n == 0x20 ||
    n == 0xA0 || n == 0x1680 || (decide (0x2000 ≤ n) && decide (n ≤ 0x200A)) ||
    n == 0x2028 || n == 0x2029 || n == 0x202F || n == 0x205F || n == 0x3000 ||
    n == 0xFEFF

/-- The digit value of `c` in base 10, `none` for a non-digit. -/
def decDigitVal (c : Char) : Option ℕ :=
  if c.isDigit then some (c.toNat - '0'.toNat) else none

/-- The digit value of `c` in base 16, `none` for a non-hex-digit. -/
def hexDigitVal (c : Char) : Option ℕ :=
  if c.isDigit then some (c.toNat - '0'.toNat)
  else if 'a' ≤ c ∧ c ≤ 'f' then some (c.toNat - 'a'.toNat + 10)
  else if 'A' ≤ c ∧ c ≤ 'F' then some (c.toNat - 'A'.toNat + 10)
  else none

/-- The digit value of `c` in base 2, `none` otherwise. -/
def binDigitVal (c : Char) : Option ℕ :=
  if c = '0' then some 0 else if c = '1' then some 1 else none

/-- The digit value of `c` in base 8, `none` otherwise. -/
def octDigitVal (c : Char) : Option ℕ :=
  if '0' ≤ c ∧ c ≤ '7' then some (c.toNat - '0'.toNat) else none

/-- Accumulate a digit string in the given radix into a natural number;
`none` as soon as a character is not a digit of that radix. -/
def parseRadixAux (radix : ℕ) (digVal : Char → Option ℕ) :
    List Char → ℕ → Option ℕ
  | [], acc => some acc
  | c :: cs, acc =>
    match digVal c with
    | some d => parseRadixAux radix digVal cs (radix * acc + d)
    | none => none

/-- A whole radix-prefixed integer literal body (the digits after `0x`,
`0b` or `0o`): at least one digit, all digits of the radix. -/
def parseRadixLiteral (radix : ℕ) (digVal : Char → Option ℕ)
    (ds : List Char) : Option ℚ :=
  match ds with
  | [] => none
  | _ => (parseRadixAux radix digVal ds 0).map (fun n => (n : ℚ))

/-- An unsigned decimal mantissa: `DecimalDigits [. [DecimalDigits]]` or
`. DecimalDigits`, with at least one digit and at most one decimal
point. -/
def parseMantissa (m : List Char) : Option ℚ :=
  let intPart := m.takeWhile (fun c => c != '.')
  match m.dropWhile (fun c => c != '.') with
  | [] =>
    if intPart.isEmpty then none
    else (parseRadixAux 10 decDigitVal intPart 0).map (fun n => (n : ℚ))
  | _ :: fracPart =>
    if fracPart.contains '.' then none
    else if intPart.isEmpty && fracPart.isEmpty then none
    else
      match parseRadixAux 10 decDigitVal intPart 0,
          parseRadixAux 10 decDigitVal fracPart 0 with
      | some ip, some fp =>
        some ((ip : ℚ) + (fp : ℚ) / (10 : ℚ) ^ fracPart.length)
      | _, _ => none

/-- An optional exponent part: empty, or `e`/`E` followed by an optionally
signed nonempty digit string; the result is the exponent as an integer. -/
def parseExpPart : List Char → Option ℤ
  | [] => some 0
  | _ :: rest =>
    let esign : ℤ := match rest with
      | '-' :: _ => -1
      | _ => 1
    let edigits : List Char := match rest with
      | '-' :: ds => ds
      | '+' :: ds => ds
      | ds => ds
    match edigits with
    | [] => none
    | _ => (parseRadixAux 10 decDigitVal edigits 0).map (fun n => esign * (n : ℤ))

/-- A JavaScript number as `Number(string)` can produce it on a non-NaN
numeric literal: a finite value, or one of the two infinities (which are
numbers, not NaN: `isNaN(Infinity)` is false and infinities take part in
the `<`/`>` range checks). -/
inductive JsNum where
  | negInf
  | finite (q : ℚ)
  | posInf
deriving DecidableEq, Repr

/-- The JavaScript comparison `a < q` of a number against a finite bound:
false for +Infinity, true for -Infinity. -/
def JsNum.ltRat : JsNum → ℚ → Bool
  | JsNum.negInf, _ => true
  | JsNum.posInf, _ => false
  | JsNum.finite a, q => decide (a < q)

/-- The JavaScript comparison `a > q` of a number against a finite bound:
true for +Infinity, false for -Infinity. -/
def JsNum.gtRat : JsNum → ℚ → Bool
  | JsNum.negInf, _ => false
  | JsNum.posInf, _ => true
  | JsNum.finite a, q => decide (q < a)

/-- Model of the JavaScript `Number(string)` coercion
(StringNumericLiteral): surrounding whitespace is stripped; the empty
string coerces to 0; an unsigned `0x`/`0X`, `0b`/`0B` or `0o`/`0O` prefix
introduces a hexadecimal, binary or octal integer; otherwise an optional
sign is followed by `Infinity` or by a decimal mantissa with an optional
`e`/`E` exponent.  Every other string is NaN, rendered here as `none`.
(Values are exact rationals; the float rounding of very long literals is
outside the embedding, as stated in the header.) -/
def jsNumber (cs : List Char) : Option JsNum :=
  let t := ((cs.dropWhile isSpaceChar).reverse.dropWhile isSpaceChar).reverse
  if t.isEmpty then some (JsNum.finite 0)
  else
    match t with
    | '0' :: 'x' :: ds => (parseRadixLiteral 16 hexDigitVal ds).map JsNum.finite
    | '0' :: 'X' :: ds => (parseRadixLiteral 16 hexDigitVal ds).map JsNum.finite
    | '0' :: 'b' :: ds => (parseRadixLiteral 2 binDigitVal ds).map JsNum.finite
    | '0' :: 'B' :: ds => (parseRadixLiteral 2 binDigitVal ds).map JsNum.finite
    | '0' :: 'o' :: ds => (parseRadixLiteral 8 octDigitVal ds).map JsNum.finite
    | '0' :: 'O' :: ds => (parseRadixLiteral 8 octDigitVal ds).map JsNum.finite
    | _ =>
      let sign : ℚ := match t with
        | '-' :: _ => -1
        | _ => 1
      let body : List Char := match t with
        | '-' :: rest => rest
        | '+' :: rest => rest
        | rest => rest
      if body = ['I', 'n', 'f', 'i', 'n', 'i', 't', 'y'] then
        some (if sign < 0 then JsNum.negInf else JsNum.posInf)
      else
        let mantissa := body.takeWhile (fun c => c != 'e' && c != 'E')
        let expPart := body.dropWhile (fun c => c != 'e' && c != 'E')
        match parseMantissa mantissa, parseExpPart expPart with
        | some mq, some e => some (JsNum.finite (sign * mq * (10 : ℚ) ^ e))
        | _, _ => none

/-- `MoonImage.getMinutes`: `"-:-"` is the sentinel for "no event"; otherwise
the string is split on `":"`, the first two fields are coerced with `Number`,
and the result is `hour * 60 + minute` unless a coercion is NaN or the hour
is outside 0-23 or the minute outside 0-59.  Fields beyond the second are
never examined by the source.  The final catch-all arm is unreachable: an
infinite coercion always fails the preceding range guard, so the numeric
result `+e0 * 60 + +e1` is only ever formed from finite values. -/
def getMinutes (timeStr : String) : Option ℚ :=
  if timeStr = "-:-" then none
  else
    match splitOnChar ':' timeStr.toList with
    | e0 :: e1 :: _ =>
      match jsNumber e0, jsNumber e1 with
      | some h, some m =>
        if h.ltRat 0 || h.gtRat 23 || m.ltRat 0 || m.gtRat 59 then none
        else
          match h, m with
          | JsNum.finite hq, JsNum.finite mq => some (hq * 60 + mq)
          | _, _ => none
      | _, _ => none
    | _ => none

/-! ## The getImage case analysis -/

/-- The fields of one day's record that `getImage` consumes, already put
through `getMinutes` (so `none` is a missing or unparsable event). -/
structure MoonRec where
  moonrise : Option ℚ
  moonset : Option ℚ
  sunrise : Option ℚ
  sunset : Option ℚ
deriving DecidableEq, Repr

/-- One `drawMoonPath(ctx, startX, endX, riseTime, setTime)` call made by
`getImage`: the sampled minute range and the rise/set anchors the curve
parameters are solved from. -/
structure MoonSegment where
  startX : ℚ
  endX : ℚ
  riseTime : ℚ
  setTime : ℚ
deriving DecidableEq, Repr

/-- The four timing configurations named in `getImage`'s comment block. -/
inductive MoonCase where
  | riseThenSet
  | setThenRise
  | riseOnly
  | setOnly
deriving DecidableEq, Repr

/-- The branch conditions of `getImage`'s if/else-if chain (lines 254-329),
in source order: rise and set present with rise < set; rise and set present
with set < rise; rise present only; set present only; anything else (neither
present, or both present and equal) falls through to the error branch. -/
def classifyMoonDay (r s : Option ℚ) : Option MoonCase :=
  match r, s with
  | some rv, some sv =>
    if rv < sv then some MoonCase.riseThenSet
    else if sv < rv then some MoonCase.setThenRise
    else none
  | some _, none => some MoonCase.riseOnly
  | none, some _ => some MoonCase.setOnly
  | none, none => none

/-- `MoonImage.getImage`, reduced to the data it computes: `none` wherever
the source returns `null`, otherwise the list of `drawMoonPath` segments it
draws together with the `(riseTime, setTime)` pair handed to
`drawMoonOnPath` for the current-time marker.  The three records are the
current, previous and next day's fetches (`none` = fetch failed); the source
aborts on any failed fetch before classifying, then aborts if sunrise or
sunset fail to parse, then runs the four-case chain, with the Case 2 fudge
factor 50 and the Case 3 and Case 4 neighbor-field guards exactly as in the
source. -/
def getImageModel (curr prev next : Option MoonRec) (nowMinutes : ℚ) :
    Option (List MoonSegment × (ℚ × ℚ)) :=
  match curr with
  | none => none
  | some c =>
    match prev with
    | none => none
    | some p =>
      match next with
      | none => none
      | some n =>
        match c.sunrise, c.sunset with
        | some _, some _ =>
          match c.moonrise, c.moonset with
          | some r, some s =>
            if r < s then
              some ([⟨0, 1440, r, s⟩], (r, s))
            else if s < r then
              match p.moonrise with
              | some pr => some ([⟨0, 1440, pr - 1440 + 50, s⟩], (pr - 1440 + 50, s))
              | none => none
            else none
          | some r, none =>
            match p.moonset, n.moonset with
            | some ps, some ns =>
              some ([⟨0, r, r, ps - 1440⟩, ⟨r, 1440, r, 1440 + ns⟩],
                (r, if nowMinutes ≤ r then ps - 1440 else 1440 + ns))
            | _, _ => none
          | none, some s =>
            match p.moonrise, n.moonrise with
            | some pr, some _ => some ([⟨0, 1440, pr - 1440, s⟩], (pr - 1440, s))
            | _, _ => none
          | none, none => none
        | _, _ => none

/-! ## The drawMoonPath curve (MoonImage.drawMoonPath, lines 408-440) -/

/-- `moonCyclePeriod = (24 * 60) + 0` from drawMoonPath. -/
def moonCyclePeriod : ℝ := 24 * 60 + 0

/-- `this.moonPlotAplitude`, as the real amplitude used by the curve. -/
def moonPlotAplitudeR : ℝ := 150

/-- `moonVisibleDuration = Math.abs(setTime - riseTime)`. -/
noncomputable def moonVisibleDuration (riseTime setTime : ℝ) : ℝ := |setTime - riseTime|

/-- `moonPeak = riseTime + moonVisibleDuration/2`. -/
noncomputable def moonPeak (riseTime setTime : ℝ) : ℝ :=
  riseTime + moonVisibleDuration riseTime setTime / 2

/-- `xOffset = riseTime - (moonPeak - moonCyclePeriod/4)`. -/
noncomputable def xOffsetOf (riseTime setTime : ℝ) : ℝ :=
  riseTime - (moonPeak riseTime setTime - moonCyclePeriod / 4)

/-- `yOffset = Math.sin((xOffset/4)/(180/Math.PI)) * moonPlotAplitude`. -/
noncomputable def yOffsetOf (riseTime setTime : ℝ) : ℝ :=
  Real.sin (xOffsetOf riseTime setTime / 4 / (180 / Real.pi)) * moonPlotAplitudeR

/-- The value plotted by drawMoonPath at minute `t`:
`Math.cos((t - moonPeak)/4 * (Math.PI/180)) * moonPlotAplitude - yOffset`. -/
noncomputable def curveY (riseTime setTime t : ℝ) : ℝ :=
  Real.cos ((t - moonPeak riseTime setTime) / 4 * (Real.pi / 180)) * moonPlotAplitudeR -
    yOffsetOf riseTime setTime

/-! ## Marker placement (MoonImage.drawMoonOnPath, lines 478-509, against
the curve sample coordinates of drawMoonPath, lines 429-437) -/

/-- `this.moonPlotYOrigin` as a real. -/
noncomputable def moonPlotYOriginR : ℝ := 400 + 500 / 2

/-- The x pixel of the curve sample at minute `x` in drawMoonPath:
`this.moonPlotX + x * this.moonPlotWidth/1440`. -/
def plotCurveX (x : ℚ) : ℚ := moonPlotX + x * moonPlotWidth / 1440

/-- The x pixel drawMoonOnPath centers the moon icon at:
`moonX = (this.moonPlotX + time) * this.moonPlotWidth/1440`. -/
def moonMarkerX (time : ℚ) : ℚ := (moonPlotX + time) * moonPlotWidth / 1440

/-- The x pixel of the fallback circle in drawMoonOnPath's catch branch:
`ctx.arc(this.moonPlotX + time, ...)`. -/
def moonMarkerFallbackX (time : ℚ) : ℚ := moonPlotX + time

/-- The curve value recomputed inside drawMoonOnPath (lines 481-489), with
the same formula as drawMoonPath. -/
noncomputable def markerCurveY (riseTime setTime time : ℝ) : ℝ :=
  Real.cos ((time - moonPeak riseTime setTime) / 4 * (Real.pi / 180)) * moonPlotAplitudeR -
    yOffsetOf riseTime setTime

/-- The y pixel drawMoonOnPath centers the marker at:
`moonY = this.moonPlotYOrigin - y`. -/
noncomputable def moonMarkerY (riseTime setTime time : ℝ) : ℝ :=
  moonPlotYOriginR - markerCurveY riseTime setTime time

/-! ## Claim C1 -/

/-- C1, amended (corrected): the drawMoonPath curve
`y(t) = amplitude * cos((t - peak)/4 degrees) - yOffset` vanishes at
`t = riseTime` for every anchor pair, and vanishes at `t = setTime` whenever
`riseTime ≤ setTime` - that is, in cases A, B, D and the Case C post-rise
segment.  (For the Case C pre-rise segment, where `setTime < riseTime`, the
curve does not vanish at `setTime`; see the counterexample.) -/
theorem curve_zero_at_rise_and_at_ordered_set (r s : ℝ) :
    curveY r s r = 0 ∧ (r ≤ s → curveY r s s = 0) := by
  constructor
  · rcases le_total r s with h | h
    · have habs : |s - r| = s - r := abs_of_nonneg (by linarith)
      unfold curveY yOffsetOf xOffsetOf moonPeak moonVisibleDuration moonCyclePeriod
        moonPlotAplitudeR
      rw [habs]
      rw [show (r - (r + (s - r) / 2)) / 4 * (Real.pi / 180)
            = -((s - r) / 8 * (Real.pi / 180)) by ring]
      rw [show (r - (r + (s - r) / 2 - (24 * 60 + 0) / 4)) / 4 / (180 / Real.pi)
            = Real.pi / 2 - (s - r) / 8 * (Real.pi / 180) by
          field_simp
          ring]
      rw [Real.cos_neg, Real.sin_pi_div_two_sub]
      ring
    · have habs : |s - r| = -(s - r) := abs_of_nonpos (by linarith)
      unfold curveY yOffsetOf xOffsetOf moonPeak moonVisibleDuration moonCyclePeriod
        moonPlotAplitudeR
      rw [habs]
      rw [show (r - (r + -(s - r) / 2)) / 4 * (Real.pi / 180)
            = -((r - s) / 8 * (Real.pi / 180)) by ring]
      rw [show (r - (r + -(s - r) / 2 - (24 * 60 + 0) / 4)) / 4 / (180 / Real.pi)
            = Real.pi / 2 - (r - s) / 8 * (Real.pi / 180) by
          field_simp
          ring]
      rw [Real.cos_neg, Real.sin_pi_div_two_sub]
      ring
  · intro h
    have habs : |s - r| = s - r := abs_of_nonneg (by linarith)
    unfold curveY yOffsetOf xOffsetOf moonPeak moonVisibleDuration moonCyclePeriod
      moonPlotAplitudeR
    rw [habs]
    rw [show (s - (r + (s - r) / 2)) / 4 * (Real.pi / 180)
          = (s - r) / 8 * (Real.pi / 180) by ring]
    rw [show (r - (r + (s - r) / 2 - (24 * 60 + 0) / 4)) / 4 / (180 / Real.pi)
          = Real.pi / 2 - (s - r) / 8 * (Real.pi / 180) by
        field_simp
        ring]
    rw [Real.sin_pi_div_two_sub]
    ring

/-- C1 witness: the amended theorem applied to the Case A scenario rise=360,
set=1080 of the specification. -/
theorem curve_zero_at_rise_and_at_ordered_set_witness :
    ((360 : ℝ) ≤ 1080) ∧ curveY 360 1080 360 = 0 ∧ curveY 360 1080 1080 = 0 :=
  ⟨by norm_num, (curve_zero_at_rise_and_at_ordered_set 360 1080).1,
    (curve_zero_at_rise_and_at_ordered_set 360 1080).2 (by norm_num)⟩

/-- C1 counterexample: in the Case C pre-rise segment of the specification's
Scenario 3 (riseTime = 75, setTime = previous-day set minus 1440 = -20, so
setTime < riseTime), the curve value at `t = setTime` is below -1: far from
zero at any floating tolerance (its exact value is about -16.9, against an
amplitude of 150). -/
theorem curve_caseC_preRise_setTime_not_zero :
    ((-20 : ℝ) < 75) ∧ curveY 75 (-20) (-20) < -1 := by
  refine ⟨by norm_num, ?_⟩
  have hpi0 : (0 : ℝ) < Real.pi := Real.pi_pos
  have hpi : Real.pi < 3.15 := Real.pi_lt_d2
  have habs : |(-20 : ℝ) - 75| = 95 := by
    rw [abs_sub_comm, abs_of_nonneg (by norm_num : (0 : ℝ) ≤ 75 - -20)]
    norm_num
  unfold curveY yOffsetOf xOffsetOf moonPeak moonVisibleDuration moonCyclePeriod
    moonPlotAplitudeR
  rw [habs]
  rw [show ((-20 : ℝ) - (75 + 95 / 2)) / 4 * (Real.pi / 180)
        = -(285 / 8 * (Real.pi / 180)) by ring]
  rw [show ((75 : ℝ) - (75 + 95 / 2 - (24 * 60 + 0) / 4)) / 4 / (180 / Real.pi)
        = Real.pi / 2 - 95 / 8 * (Real.pi / 180) by
      field_simp
      ring]
  rw [Real.cos_neg, Real.sin_pi_div_two_sub]
  have hA : Real.cos (285 / 8 * (Real.pi / 180)) < Real.cos (Real.pi / 6) := by
    apply Real.cos_lt_cos_of_nonneg_of_le_pi
    · positivity
    · nlinarith
    · nlinarith
  have hB : (1 : ℝ) - (95 / 8 * (Real.pi / 180)) ^ 2 / 2
      ≤ Real.cos (95 / 8 * (Real.pi / 180)) :=
    Real.one_sub_sq_div_two_le_cos
  have hs3 : Real.sqrt 3 < 1.7321 := by
    nlinarith [Real.sq_sqrt (show (0 : ℝ) ≤ 3 by norm_num), Real.sqrt_nonneg 3]
  rw [Real.cos_pi_div_six] at hA
  have hBlt : 95 / 8 * (Real.pi / 180) < 0.2079 := by nlinarith
  have hBpos : (0 : ℝ) < 95 / 8 * (Real.pi / 180) := by positivity
  have hB2 : (95 / 8 * (Real.pi / 180)) ^ 2 < 0.0433 := by nlinarith
  linarith

/-! ## Claim C2 -/

/-- C2 (code_bug): for the input date 2000-01-01 UTC
(`date.getTime() = 946684800000`, timezone offset 0, five days before the
`LUNAR_REFERENCE` epoch) the remainder is -5.6 and the source's `ageDays++`
adds 1, not one full synodic period, returning -4.6: a negative value
outside [0, MOON_PERIOD_DAYS), contradicting the function's own documented
range.  The normalization the claim (and the code's doc comment) describes
would return -5.6 + MOON_PERIOD_DAYS = 23.93058770576. -/
theorem moonAge_increment_bug_at_year2000_date :
    getMoonAgeDays 946684800000 0 = -(23 / 5)
    ∧ getMoonAgeDays 946684800000 0 < 0
    ∧ -(28 / 5) + MOON_PERIOD_DAYS = 23.93058770576 := by
  have hceil : (⌈(-((35000000000 : ℚ) / 184566173161))⌉ : ℤ) = 0 := by
    rw [Int.ceil_neg]
    norm_num
  refine ⟨?_, ?_, by norm_num [MOON_PERIOD_DAYS]⟩ <;>
    norm_num [getMoonAgeDays, jsRem, jsTrunc, MSEC_PER_DAY, MIN_PER_DAY, UNIX_EPOCH,
      LUNAR_REFERENCE, MOON_PERIOD_DAYS, hceil]

/-! ## Claim C3 -/

/-- C3, amended (corrected): the four branch conditions of `getImage`'s
classification are characterized exactly by the four configurations
(rise<set; set<rise; rise only; set only) and are therefore mutually
exclusive; some branch is taken whenever at least one event is present and,
if both are present, their times differ; and when neither moonrise nor
moonset is present `getImage` returns null.  (When both are present and
equal, no branch is taken either - see the counterexample.) -/
theorem moonDay_classification_amended :
    (∀ r s : Option ℚ, (r ≠ none ∨ s ≠ none) →
        (∀ a b : ℚ, r = some a → s = some b → a ≠ b) →
        (classifyMoonDay r s).isSome)
    ∧ classifyMoonDay none none = none
    ∧ (∀ (c : MoonRec) (prev next : Option MoonRec) (now : ℚ),
        c.moonrise = none → c.moonset = none →
        getImageModel (some c) prev next now = none)
    ∧ (∀ r s : Option ℚ,
        (classifyMoonDay r s = some MoonCase.riseThenSet ↔
          ∃ a b : ℚ, r = some a ∧ s = some b ∧ a < b)
        ∧ (classifyMoonDay r s = some MoonCase.setThenRise ↔
          ∃ a b : ℚ, r = some a ∧ s = some b ∧ b < a)
        ∧ (classifyMoonDay r s = some MoonCase.riseOnly ↔ r.isSome ∧ s = none)
        ∧ (classifyMoonDay r s = some MoonCase.setOnly ↔ r = none ∧ s.isSome)) := by
  refine ⟨?_, rfl, ?_, ?_⟩
  · intro r s hne hneq
    cases r with
    | none =>
      cases s with
      | none => rcases hne with h | h <;> exact absurd rfl h
      | some b => simp [classifyMoonDay]
    | some a =>
      cases s with
      | none => simp [classifyMoonDay]
      | some b =>
        rcases lt_trichotomy a b with h | h | h
        · simp [classifyMoonDay, h]
        · exact absurd h (hneq a b rfl rfl)
        · simp [classifyMoonDay, h, lt_asymm h]
  · intro c prev next now h1 h2
    obtain ⟨mr, ms, su, sd⟩ := c
    dsimp only at h1 h2
    subst h1
    subst h2
    cases prev with
    | none => rfl
    | some p =>
      cases next with
      | none => rfl
      | some n =>
        cases su with
        | none => rfl
        | some a =>
          cases sd with
          | none => rfl
          | some b => rfl
  · intro r s
    cases r with
    | none =>
      cases s with
      | none => simp [classifyMoonDay]
      | some b => simp [classifyMoonDay]
    | some a =>
      cases s with
      | none => simp [classifyMoonDay]
      | some b =>
        rcases lt_trichotomy a b with h | h | h
        · simp [classifyMoonDay, h, lt_asymm h]
        · subst h
          simp [classifyMoonDay]
        · simp [classifyMoonDay, h, lt_asymm h]

/-- C3 witness: the amended theorem applied to rise=360, set=1080, where a
branch is indeed taken. -/
theorem moonDay_classification_amended_witness :
    ((some (360 : ℚ) : Option ℚ) ≠ none ∨ (some (1080 : ℚ) : Option ℚ) ≠ none)
    ∧ (classifyMoonDay (some 360) (some 1080)).isSome :=
  ⟨Or.inl (by simp), moonDay_classification_amended.1 (some 360) (some 1080)
    (Or.inl (by simp))
    (by
      intro a b ha hb
      rw [Option.some_inj] at ha hb
      subst ha
      subst hb
      norm_num)⟩

/-- C3 counterexample: a target day whose moonrise and moonset are both
present and equal (600 = 10:00) takes none of the four case branches, so the
classification is not exhaustive over all records as the claim states. -/
theorem moonDay_classification_equal_times_no_case :
    classifyMoonDay (some 600) (some 600) = none := by
  simp [classifyMoonDay]

/-! ## Claim C4 -/

/-- C4, amended (corrected): `getImage` fetches all three day records
eagerly and aborts when the previous-day or next-day fetch fails, whatever
the case - in particular a Case A day still needs both neighbor records.
Once all three fetches succeed, only the neighbor fields demanded by the
resolved case must be present: Case A succeeds with every neighbor field
absent, while Case D demands both the previous-day rise and the next-day
rise (the next-day rise is checked for presence even though its value is
never used). -/
theorem neighbor_record_requirements_amended :
    (∀ (curr next : Option MoonRec) (now : ℚ), getImageModel curr none next now = none)
    ∧ (∀ (curr prev : Option MoonRec) (now : ℚ), getImageModel curr prev none now = none)
    ∧ (∀ (r s sr ss now : ℚ) (p n : MoonRec), r < s →
        getImageModel (some ⟨some r, some s, some sr, some ss⟩) (some p) (some n) now
          = some ([⟨0, 1440, r, s⟩], (r, s)))
    ∧ (∀ (s sr ss pr now : ℚ) (pms psr pss nms nsr nss : Option ℚ),
        getImageModel (some ⟨none, some s, some sr, some ss⟩)
          (some ⟨some pr, pms, psr, pss⟩) (some ⟨none, nms, nsr, nss⟩) now = none) := by
  refine ⟨?_, ?_, ?_, ?_⟩
  · intro curr next now
    cases curr with
    | none => rfl
    | some c => rfl
  · intro curr prev now
    cases curr with
    | none => rfl
    | some c =>
      cases prev with
      | none => rfl
      | some p => rfl
  · intro r s sr ss now p n h
    simp [getImageModel, h]
  · intro s sr ss pr now pms psr pss nms nsr nss
    rfl

/-- C4 witness: the amended theorem's Case A clause applied to rise=360,
set=1080 with neighbor records whose fields are all absent. -/
theorem neighbor_record_requirements_amended_witness :
    ((360 : ℚ) < 1080)
    ∧ getImageModel (some ⟨some 360, some 1080, some 400, some 1100⟩)
        (some ⟨none, none, none, none⟩) (some ⟨none, none, none, none⟩) 600
      = some ([⟨0, 1440, 360, 1080⟩], (360, 1080)) :=
  ⟨by norm_num, neighbor_record_requirements_amended.2.2.1 360 1080 400 1100 600
    ⟨none, none, none, none⟩ ⟨none, none, none, none⟩ (by norm_num)⟩

/-- C4 counterexample: a Case A day (rise=360 < set=1080, sunrise and sunset
present) whose previous-day fetch failed renders nothing - `getImage`
returns null - although the claim says Case A requires no neighbor record at
all. -/
theorem caseA_fails_when_previous_fetch_fails :
    getImageModel (some ⟨some 360, some 1080, some 400, some 1100⟩)
        none (some ⟨none, none, none, none⟩) 600 = none
    ∧ ((360 : ℚ) < 1080) := by
  exact ⟨rfl, by norm_num⟩

/-! ## Claim C5 -/

/-- C5, amended (corrected): in Case D (current rise absent, set present,
both neighbor rises present) `getImage` produces exactly one segment over
[0, 1440] whose rise anchor is the previous-day rise minus 1440 minutes with
no correction constant added, and whose set anchor is the current-day set;
the same pair parameterizes the current-time marker. -/
theorem caseD_single_segment_no_correction
    (s sr ss pr nr now : ℚ) (pms psr pss nms nsr nss : Option ℚ) :
    getImageModel (some ⟨none, some s, some sr, some ss⟩)
        (some ⟨some pr, pms, psr, pss⟩) (some ⟨some nr, nms, nsr, nss⟩) now
      = some ([⟨0, 1440, pr - 1440, s⟩], (pr - 1440, s)) := rfl

/-- C5 counterexample: the specification's Scenario 4 (current set=330,
previous-day rise=1435) produces the segment anchored at riseTime = -5 =
1435 - 1440 exactly; no tuned correction constant is added - the anchor
differs from 1435 - 1440 + c for each of the correction constants 50, 10 and
70 that appear in this repository's variants. -/
theorem caseD_correction_constant_refuted :
    getImageModel (some ⟨none, some 330, some 400, some 1100⟩)
        (some ⟨some 1435, none, none, none⟩) (some ⟨some 200, none, none, none⟩) 600
      = some ([⟨0, 1440, -5, 330⟩], (-5, 330))
    ∧ ((-5 : ℚ) ≠ 1435 - 1440 + 50 ∧ (-5 : ℚ) ≠ 1435 - 1440 + 10
        ∧ (-5 : ℚ) ≠ 1435 - 1440 + 70) := by
  constructor
  · simp only [getImageModel]
    norm_num [MoonSegment.mk.injEq]
  · norm_num

/-! ## Claim C6 -/

/-- C6 (confirmed): in Case C (current rise present, set absent, both
neighbor sets present) `getImage` produces exactly two segments - a pre-rise
segment over [0, riseTime] anchored to the previous-day set minus 1440 and a
post-rise segment over [riseTime, 1440] anchored to 1440 plus the next-day
set - and the current-time marker uses the first segment's (riseTime,
setTime) pair exactly when the current minute is at most riseTime, otherwise
the second segment's pair. -/
theorem caseC_two_segments_and_marker_selection
    (r sr ss ps ns now : ℚ) (pmr psr pss nmr nsr nss : Option ℚ) :
    getImageModel (some ⟨some r, none, some sr, some ss⟩)
        (some ⟨pmr, some ps, psr, pss⟩) (some ⟨nmr, some ns, nsr, nss⟩) now
      = some ([⟨0, r, r, ps - 1440⟩, ⟨r, 1440, r, 1440 + ns⟩],
          (r, if now ≤ r then ps - 1440 else 1440 + ns)) := rfl

/-! ## Claim C7 -/

/-- C7, amended (corrected): `getMinutes` maps the sentinel `"-:-"` to the
absent value; for any other string that splits on `":"` into at least two
fields it coerces only the first two fields with the JS `Number` coercion
(decimal, exponent, hexadecimal, binary, octal and `Infinity` forms),
returning `hour * 60 + minute` exactly when both coercions are finite with
hour in [0,23] and minute in [0,59] (fields beyond the second are ignored),
and the absent value - never an exception - when the string has fewer than
two fields, a first or second field that is not numeric (NaN under
`Number`), or a coerced value failing the range guard (which every infinite
value does).  So `"2e1:30"` converts to 1230 and `"0x5:30"` to 330.  On
integer hours and minutes the map (h, m) to h * 60 + m is a bijection from
[0,23] x [0,59] onto [0,1439]. -/
theorem getMinutes_amended :
    getMinutes "-:-" = none
    ∧ (∀ (s : String) (e0 e1 : List Char) (rest : List (List Char)) (h m : ℚ),
        s ≠ "-:-" →
        splitOnChar ':' s.toList = e0 :: e1 :: rest →
        jsNumber e0 = some (JsNum.finite h) → jsNumber e1 = some (JsNum.finite m) →
        0 ≤ h → h ≤ 23 → 0 ≤ m → m ≤ 59 →
        getMinutes s = some (h * 60 + m))
    ∧ (∀ (s : String) (e0 : List Char),
        splitOnChar ':' s.toList = [e0] → getMinutes s = none)
    ∧ (∀ (s : String) (e0 e1 : List Char) (rest : List (List Char)),
        s ≠ "-:-" → splitOnChar ':' s.toList = e0 :: e1 :: rest →
        (jsNumber e0 = none ∨ jsNumber e1 = none) → getMinutes s = none)
    ∧ (∀ (s : String) (e0 e1 : List Char) (rest : List (List Char)) (h m : JsNum),
        s ≠ "-:-" → splitOnChar ':' s.toList = e0 :: e1 :: rest →
        jsNumber e0 = some h → jsNumber e1 = some m →
        (h.ltRat 0 || h.gtRat 23 || m.ltRat 0 || m.gtRat 59) = true →
        getMinutes s = none)
    ∧ getMinutes "2e1:30" = some 1230
    ∧ getMinutes "0x5:30" = some 330
    ∧ (∀ h1 m1 h2 m2 : ℕ, h1 ≤ 23 → m1 ≤ 59 → h2 ≤ 23 → m2 ≤ 59 →
        h1 * 60 + m1 = h2 * 60 + m2 → h1 = h2 ∧ m1 = m2)
    ∧ (∀ h m : ℕ, h ≤ 23 → m ≤ 59 → h * 60 + m ≤ 1439)
    ∧ (∀ n : ℕ, n ≤ 1439 → ∃ h m : ℕ, h ≤ 23 ∧ m ≤ 59 ∧ h * 60 + m = n) := by
  refine ⟨rfl, ?_, ?_, ?_, ?_, ?_, ?_, ?_, ?_, ?_⟩
  · intro s e0 e1 rest h m hs hsplit hj0 hj1 h0 h1 h2 h3
    simp only [getMinutes, if_neg hs, hsplit, hj0, hj1]
    have hguard : (JsNum.ltRat (JsNum.finite h) 0 || JsNum.gtRat (JsNum.finite h) 23 ||
        JsNum.ltRat (JsNum.finite m) 0 || JsNum.gtRat (JsNum.finite m) 59) = false := by
      simp only [JsNum.ltRat, JsNum.gtRat, Bool.or_eq_false_iff, decide_eq_false_iff_not,
        not_lt]
      exact ⟨⟨⟨h0, h1⟩, h2⟩, h3⟩
    rw [hguard]
    rfl
  · intro s e0 hsplit
    by_cases hs : s = "-:-"
    · simp [getMinutes, hs]
    · simp only [getMinutes, if_neg hs, hsplit]
  · intro s e0 e1 rest hs hsplit hj
    rcases hj with hj | hj
    · rcases hj1 : jsNumber e1 with _ | m <;>
        simp only [getMinutes, if_neg hs, hsplit, hj, hj1]
    · rcases hj0 : jsNumber e0 with _ | h <;>
        simp only [getMinutes, if_neg hs, hsplit, hj, hj0]
  · intro s e0 e1 rest h m hs hsplit hj0 hj1 hrange
    simp only [getMinutes, if_neg hs, hsplit, hj0, hj1]
    rw [if_pos hrange]
  · simp [getMinutes, jsNumber, splitOnChar, parseMantissa, parseExpPart,
      parseRadixLiteral, parseRadixAux, decDigitVal, isSpaceChar,
      JsNum.ltRat, JsNum.gtRat]
    norm_num
  · simp [getMinutes, jsNumber, splitOnChar, parseMantissa, parseExpPart,
      parseRadixLiteral, parseRadixAux, decDigitVal, hexDigitVal, isSpaceChar,
      JsNum.ltRat, JsNum.gtRat]
    norm_num
  · intro h1 m1 h2 m2 a b c d e
    omega
  · intro h m a b
    omega
  · intro n hn
    exact ⟨n / 60, n % 60, by omega, by omega, by omega⟩

/-- C7 witness: the amended theorem's success clause applied to "7:45". -/
theorem getMinutes_amended_witness :
    (("7:45" : String) ≠ "-:-") ∧ getMinutes "7:45" = some (7 * 60 + 45) :=
  ⟨by decide, getMinutes_amended.2.1 "7:45" ['7'] ['4', '5'] [] 7 45 (by decide) rfl
    (by simp [jsNumber, parseMantissa, parseExpPart, parseRadixAux, decDigitVal, isSpaceChar])
    (by simp [jsNumber, parseMantissa, parseExpPart, parseRadixAux, decDigitVal, isSpaceChar])
    (by norm_num) (by norm_num) (by norm_num) (by norm_num)⟩

/-- C7 counterexample: "10:30:xx" has a non-numeric third field, so by the
claim the conversion should yield the absent value; the source ignores every
field beyond the second and returns 630. -/
theorem getMinutes_ignores_extra_fields :
    getMinutes "10:30:xx" = some 630 ∧ jsNumber "xx".toList = none := by
  constructor
  · simp [getMinutes, jsNumber, splitOnChar, parseMantissa, parseExpPart,
      parseRadixAux, decDigitVal, isSpaceChar, JsNum.ltRat, JsNum.gtRat]
    norm_num
  · rfl

/-! ## Claim C8 -/

/-- C8 (code_bug): at ageDays = 18 (inside the tenth bucket, where the phase
name is the waning gibbous one) the icon lookup returns "waning-crescent.png"
instead of an icon naming the gibbous phase, and at ageDays = 12 (seventh
bucket, Waxing Gibbous) it returns "waxing-gibbous" without the ".png"
extension; both disagree with the specification-side lookup that names
exactly the phase of `getPhaseStr` over the same bucket boundaries. -/
theorem phase_icon_lookup_mismatch :
    getPhaseStr 18 = "Waning Gibbus"
    ∧ getMoonImageForAge 18 = "waning-crescent.png"
    ∧ specIconForAge 18 = "waning-gibbous.png"
    ∧ getMoonImageForAge 18 ≠ specIconForAge 18
    ∧ getPhaseStr 12 = "Waxing Gibbous"
    ∧ getMoonImageForAge 12 = "waxing-gibbous"
    ∧ specIconForAge 12 = "waxing-gibbous.png"
    ∧ getMoonImageForAge 12 ≠ specIconForAge 12
    ∧ (0 : ℚ) ≤ 18 ∧ (18 : ℚ) < MOON_PERIOD_DAYS := by
  have h1 : getPhaseStr 18 = "Waning Gibbus" := by norm_num [getPhaseStr, MOON_PERIOD_DAYS]
  have h2 : getMoonImageForAge 18 = "waning-crescent.png" := by
    norm_num [getMoonImageForAge, MOON_PERIOD_DAYS]
  have h3 : specIconForAge 18 = "waning-gibbous.png" := by
    norm_num [specIconForAge, MOON_PERIOD_DAYS]
  have h4 : getPhaseStr 12 = "Waxing Gibbous" := by norm_num [getPhaseStr, MOON_PERIOD_DAYS]
  have h5 : getMoonImageForAge 12 = "waxing-gibbous" := by
    norm_num [getMoonImageForAge, MOON_PERIOD_DAYS]
  have h6 : specIconForAge 12 = "waxing-gibbous.png" := by
    norm_num [specIconForAge, MOON_PERIOD_DAYS]
  refine ⟨h1, h2, h3, ?_, h4, h5, h6, ?_, by norm_num, by norm_num [MOON_PERIOD_DAYS]⟩
  · rw [h2, h3]
    decide
  · rw [h5, h6]
    decide

/-! ## Claim C9 -/

/-- C9 (code_bug): the y pixel of the drawMoonOnPath marker agrees with the
curve sample (`moonPlotYOrigin - y(t)` with the same curve value), but the x
pixel does not: at time = 1200 the curve sample sits at
x = moonPlotX + 1200 * moonPlotWidth/1440 = 1550, while the icon marker is
centered at (moonPlotX + 1200) * moonPlotWidth/1440 = 1562.5 and the
fallback circle at moonPlotX + 1200 = 1250. -/
theorem marker_x_coordinate_mismatch :
    moonMarkerX 1200 = 3125 / 2
    ∧ plotCurveX 1200 = 1550
    ∧ moonMarkerX 1200 ≠ plotCurveX 1200
    ∧ moonMarkerFallbackX 1200 = 1250
    ∧ moonMarkerFallbackX 1200 ≠ plotCurveX 1200
    ∧ (∀ r s t : ℝ, moonMarkerY r s t = moonPlotYOriginR - curveY r s t) := by
  have h1 : moonMarkerX 1200 = 3125 / 2 := by
    norm_num [moonMarkerX, moonPlotX, moonPlotWidth]
  have h2 : plotCurveX 1200 = 1550 := by
    norm_num [plotCurveX, moonPlotX, moonPlotWidth]
  have h3 : moonMarkerFallbackX 1200 = 1250 := by
    norm_num [moonMarkerFallbackX, moonPlotX]
  refine ⟨h1, h2, ?_, h3, ?_, fun r s t => rfl⟩
  · rw [h1, h2]
    norm_num
  · rw [h3, h2]
    norm_num

/-! ## Claim C10 -/

/-- C10 (confirmed): when the target day's moonrise and moonset are both
present and equal, none of the four case branches applies and `getImage`
returns null, whatever the neighbor records, the sun fields and the current
time. -/
theorem equal_rise_and_set_returns_null
    (v now : ℚ) (su sd : Option ℚ) (prev next : Option MoonRec) :
    getImageModel (some ⟨some v, some v, su, sd⟩) prev next now = none := by
  cases prev with
  | none => rfl
  | some p =>
    cases next with
    | none => rfl
    | some n =>
      cases su with
      | none => rfl
      | some a =>
        cases sd with
        | none => rfl
        | some b => simp [getImageModel]

end MoonBuilder
